import Mathlib

/-
Verification of the gdip_snapshot screen-capture utility (src/src/main.rs).

The program chains non-garbage-collected OS resources (device contexts, a DIB
section bitmap, an object selection, a GDI+ session token, a GDI+ image wrap)
through a capture-and-save pipeline.  We embed it shallowly: every OS call is
driven by an environment record saying whether that call succeeds, each
function returns its `Except` result together with a trace of the OS calls it
made (acquisitions, releases and plain calls), and Rust's drop semantics is
modelled by a guard stack whose entries are appended to the trace on every
exit path; `std::mem::forget` of a guard erases that guard's release from the
stack.
-/

namespace GdipSnapshot

/-- Error outcomes of the embedded program.  Each constructor corresponds to
one error site in `src/src/main.rs` (the spec's names are noted):
`getDCFailed` = "GetDC failed"; `createCompatibleDCFailed` =
"CreateCompatibleDC failed"; `createDIBFailed` = the propagated
`CreateDIBSection` error (spec: AllocationFailed); `selectObjectFailed` =
"SelectObject failed"; `bitBltFailed` = the propagated `BitBlt` error (spec:
CopyFailed); `gdiplusStartupFailed` = "GdiplusStartup failed"; `wrapFailed` =
"GdipCreateBitmapFromHBITMAP failed" (spec: WrapFailed); `noExtension` =
"filename has no extension" (spec: InvalidArgument); `saveFailed` =
"GdipSaveImageToFile failed" (spec: SaveFailed); `encodersSizeFailed` =
"GdipGetImageEncodersSize failed" (spec: EncoderEnumerationFailed);
`noEncodersInstalled` = "No image encoders available" (spec:
NoEncodersInstalled); `coTaskMemAllocFailed` = "CoTaskMemAlloc failed";
`encodersFillFailed` = "GdipGetImageEncoders failed"; `unsupportedFormat` =
"No encoder found for the given extension" (spec: UnsupportedFormat);
`geometryUnavailable` = main's "Detected non-positive screen size" exit
(spec: GeometryUnavailable); `invalidRectangle` = main's "width and height
must be > 0" exit (spec: InvalidArgument). -/
inductive Err where
  | getDCFailed
  | createCompatibleDCFailed
  | createDIBFailed
  | selectObjectFailed
  | bitBltFailed
  | gdiplusStartupFailed
  | wrapFailed
  | noExtension
  | saveFailed
  | encodersSizeFailed
  | noEncodersInstalled
  | coTaskMemAllocFailed
  | encodersFillFailed
  | unsupportedFormat
  | geometryUnavailable
  | invalidRectangle
  deriving DecidableEq

/-- Trace events: one per OS call the program makes.  Calls that acquire a
resource record whether they succeeded (`GetDC`, `CreateCompatibleDC`,
`CreateDIBSection` with the handle it produced, `SelectObject`,
`GdiplusStartup`, `GdipCreateBitmapFromHBITMAP`); release calls
(`ReleaseDC`, `DeleteDC`, `DeleteObject`, restoring the old selection,
`GdiplusShutdown`, `GdipDisposeImage`) carry no status because the code
ignores theirs; `BitBlt` records the source rectangle it was asked to copy
and `GdipSaveImageToFile` its status. -/
inductive Ev where
  | getDC (ok : Bool)
  | releaseDC
  | createCompatDC (ok : Bool)
  | deleteDC
  | createDIB (result : Option Nat)
  | deleteObject (h : Nat)
  | selectObject (ok : Bool)
  | selectRestore
  | bitBlt (x y w h : Int) (ok : Bool)
  | gdipStartup (ok : Bool)
  | gdipShutdown
  | gdipWrap (ok : Bool)
  | gdipDispose
  | gdipSave (ok : Bool)
  deriving DecidableEq

/-- One installed encoder as enumerated by GDI+ (`ImageCodecInfo`).  The
`Clsid` GUID is opaque to the program, so we model it as a `Nat`; the
`FilenameExtension` field is `none` when the codec leaves that pointer null
(the code skips such codecs). -/
structure ImageCodecInfo where
  Clsid : Nat
  FilenameExtension : Option String
  deriving DecidableEq

/-- Responses of the GDI+ encoder-enumeration calls used by
`clsid_for_extension`: whether `GdipGetImageEncodersSize` succeeds, the byte
size it reports, whether `CoTaskMemAlloc` returns a non-null buffer, whether
`GdipGetImageEncoders` succeeds, and the codec records the filled buffer
holds (their number is the `num` the size query reported). -/
structure EncoderEnv where
  sizeQueryOk : Bool
  size : Nat
  allocOk : Bool
  fillOk : Bool
  encoders : List ImageCodecInfo
  deriving DecidableEq

/-- Responses of the GDI calls made by `capture_region`: success of `GetDC`,
`CreateCompatibleDC`, `CreateDIBSection`, `SelectObject` and `BitBlt`, the
bitmap handle `CreateDIBSection` hands out, and the previously selected
object `SelectObject` returns. -/
structure CaptureEnv where
  getDCOk : Bool
  createCompatDCOk : Bool
  createDIBOk : Bool
  selectOk : Bool
  bitBltOk : Bool
  dibHandle : Nat
  oldHandle : Nat
  deriving DecidableEq

/-- Responses of the GDI+ calls made by `save_hbitmap_with_gdiplus`: whether
`GdipCreateBitmapFromHBITMAP` accepts the handle, the encoder-enumeration
environment consumed by `clsid_for_extension`, and the status of
`GdipSaveImageToFile`. -/
structure SaveEnv where
  wrapOk : Bool
  enc : EncoderEnv
  saveOk : Bool
  deriving DecidableEq

/-- Environment of the whole `capture_rectangle` pipeline: the
`GdiplusStartup` status plus the capture and save environments. -/
structure PipelineEnv where
  gdipStartupOk : Bool
  cap : CaptureEnv
  save : SaveEnv
  deriving DecidableEq

/-- The `GetSystemMetrics` values `screen_rect` queries: primary-monitor
width/height and the virtual-desktop origin and size. -/
structure DisplayEnv where
  xVirtual : Int
  yVirtual : Int
  cxVirtual : Int
  cyVirtual : Int
  cxScreen : Int
  cyScreen : Int
  deriving DecidableEq

/-- The two `GetSystemMetrics`-backed modes of `screen_rect`
(`ScreenMode::Virtual` and `ScreenMode::Primary` in the source). -/
inductive ScreenMode where
  | Virtual
  | Primary
  deriving DecidableEq

/- ------------------------------------------------------------------ -/
/- String helpers, on `List Char` so that everything kernel-evaluates. -/
/- ------------------------------------------------------------------ -/

/-- Rust `str::to_ascii_lowercase`: `Char.toLower` maps exactly the ASCII
uppercase letters, like the Rust call. -/
def asciiLower (s : String) : String :=
  String.mk (s.data.map Char.toLower)

/-- Rust `str::trim` on a character list (leading and trailing whitespace
removed). -/
def trimChars (l : List Char) : List Char :=
  ((l.dropWhile Char.isWhitespace).reverse.dropWhile Char.isWhitespace).reverse

/-- Split a character list on a separator predicate, keeping empty pieces:
the semantics of Rust `str::split`. -/
def splitByChar (p : Char → Bool) (l : List Char) : List (List Char) :=
  l.foldr
    (fun c acc =>
      if p c then [] :: acc
      else
        match acc with
        | h :: t => (c :: h) :: t
        | [] => [[c]])
    [[]]

/-- Rust `exts.split(';')` from the encoder-matching loop. -/
def rustSplitSemi (s : String) : List String :=
  (splitByChar (fun c => c == ';') s.data).map String.mk

/-- The normalization `clsid_for_extension` applies to the requested
extension: `format!(".{}", ext.trim_start_matches('.')).to_ascii_lowercase()`. -/
def normalizeExt (ext : String) : String :=
  asciiLower (String.mk ('.' :: ext.data.dropWhile (fun c => c = '.')))

/-- The normalization applied to each semicolon-separated codec pattern:
`pat.trim().trim_start_matches('*').to_ascii_lowercase()`. -/
def patNormalize (pat : String) : String :=
  asciiLower (String.mk ((trimChars pat.data).dropWhile (fun c => c = '*')))

/-- Whether one codec record matches the normalized extension `want`: a codec
with a null `FilenameExtension` is skipped (`continue` in the source), and
otherwise its pattern string is split on ';' and each pattern compared after
`patNormalize`. -/
def infoMatches (want : String) (info : ImageCodecInfo) : Bool :=
  match info.FilenameExtension with
  | none => false
  | some exts => (rustSplitSemi exts).any (fun pat => decide (patNormalize pat = want))

/-- The scan loop of `clsid_for_extension`: first codec (in enumeration
order) whose extension list contains `want` wins; `none` if no codec
matches. -/
def findEncoder (want : String) : List ImageCodecInfo → Option Nat
  | [] => none
  | info :: rest =>
    if infoMatches want info then some info.Clsid else findEncoder want rest

/-- Embedding of `clsid_for_extension` (src/src/main.rs lines 91-142): size
query, `num == 0 || size == 0` check, buffer allocation, fill call, then the
first-match scan; the enumeration buffer is freed by `EncodersGuard` on every
path (not traced — no claim mentions it).  The UTF-16 decode of
`FilenameExtension` is modelled as always succeeding. -/
def clsid_for_extension (env : EncoderEnv) (ext : String) : Except Err Nat :=
  if env.sizeQueryOk = false then .error .encodersSizeFailed
  else if env.encoders.length = 0 ∨ env.size = 0 then .error .noEncodersInstalled
  else if env.allocOk = false then .error .coTaskMemAllocFailed
  else if env.fillOk = false then .error .encodersFillFailed
  else
    let want := normalizeExt ext
    match findEncoder want env.encoders with
    | some c => .ok c
    | none => .error .unsupportedFormat

/-- Embedding of `make_dib_section` (lines 165-191): succeeds with the handle
the OS allocates, or propagates the `CreateDIBSection` error. -/
def make_dib_section (env : CaptureEnv) : Except Err Nat :=
  if env.createDIBOk then .ok env.dibHandle else .error .createDIBFailed

/-- Embedding of `capture_region` (lines 193-226).  The second component is
the trace of GDI calls; `g1`–`g4` is the stack of live guards
(`ScreenDcGuard`, `DcGuard`, `BitmapGuard`, `SelectGuard`), appended to the
trace on each exit because Rust drops guards in reverse declaration order;
`std::mem::forget(hbmp_guard)` on the success path erases the bitmap guard's
release from the stack before it runs. -/
def capture_region (env : CaptureEnv) (x y w h : Int) : Except Err Nat × List Ev :=
  if env.getDCOk = false then
    (.error .getDCFailed, [Ev.getDC false])
  else
    let g1 : List Ev := [Ev.releaseDC]
    if env.createCompatDCOk = false then
      (.error .createCompatibleDCFailed, [Ev.getDC true, Ev.createCompatDC false] ++ g1)
    else
      let g2 := Ev.deleteDC :: g1
      match make_dib_section env with
      | .error e =>
        (.error e, [Ev.getDC true, Ev.createCompatDC true, Ev.createDIB none] ++ g2)
      | .ok hbmp =>
        let g3 := Ev.deleteObject hbmp :: g2
        if env.selectOk = false then
          (.error .selectObjectFailed,
           [Ev.getDC true, Ev.createCompatDC true, Ev.createDIB (some hbmp),
            Ev.selectObject false] ++ g3)
        else
          let g4 := Ev.selectRestore :: g3
          if env.bitBltOk = false then
            (.error .bitBltFailed,
             [Ev.getDC true, Ev.createCompatDC true, Ev.createDIB (some hbmp),
              Ev.selectObject true, Ev.bitBlt x y w h false] ++ g4)
          else
            (.ok hbmp,
             [Ev.getDC true, Ev.createCompatDC true, Ev.createDIB (some hbmp),
              Ev.selectObject true, Ev.bitBlt x y w h true]
               ++ g4.erase (Ev.deleteObject hbmp))

/-- Characters after the last '.' of a list, or `none` when it has no '.'. -/
def afterLastDot : List Char → Option (List Char)
  | [] => none
  | c :: cs =>
    match afterLastDot cs with
    | some r => some r
    | none => if c = '.' then some cs else none

/-- Model of Rust `std::path::Path::extension` applied to a file name: the
portion after the final '.', where a '.' at position 0 does not begin an
extension (so ".png" and "png" have none, "a." has the empty extension). -/
def extOfName : List Char → Option String
  | [] => none
  | _ :: rest => (afterLastDot rest).map (fun l => String.mk l)

/-- Model of Rust `std::path::Path::file_name`: the last component after
splitting on the Windows separators '/' and '\', with empty and "."
components skipped, and `none` when nothing remains or the path ends in
"..". -/
def path_file_name (s : String) : Option (List Char) :=
  let comps :=
    (splitByChar (fun c => c == '/' || c == '\\') s.data).filter
      (fun c => !(c == []) && !(c == ['.']))
  match comps.getLast? with
  | none => none
  | some last => if last = ['.', '.'] then none else some last

/-- Model of Rust `Path::new(filename).extension()` as used at
src/src/main.rs lines 244-247 (the `to_str` step always succeeds on our
strings). -/
def path_extension (filename : String) : Option String :=
  (path_file_name filename).bind extOfName

/-- Embedding of `save_hbitmap_with_gdiplus` (lines 229-263): wrap the
bitmap handle (`WrapFailed` on rejection), then under the `ImgGuard` extract
the extension (`noExtension` when absent), resolve the encoder, and save
(`saveFailed` on a non-Ok status); the guard's `GdipDisposeImage` runs on
every exit after a successful wrap. -/
def save_hbitmap_with_gdiplus (env : SaveEnv) (hbmp : Nat) (filename : String) :
    Except Err Unit × List Ev :=
  if env.wrapOk = false then (.error .wrapFailed, [Ev.gdipWrap false])
  else
    let g : List Ev := [Ev.gdipDispose]
    match path_extension filename with
    | none => (.error .noExtension, [Ev.gdipWrap true] ++ g)
    | some ext =>
      match clsid_for_extension env.enc ext with
      | .error e => (.error e, [Ev.gdipWrap true] ++ g)
      | .ok _ =>
        if env.saveOk = false then
          (.error .saveFailed, [Ev.gdipWrap true, Ev.gdipSave false] ++ g)
        else
          (.ok (), [Ev.gdipWrap true, Ev.gdipSave true] ++ g)

/-- Embedding of `capture_rectangle` (lines 299-307): `GdiplusGuard::new()?`
starts GDI+ (its guard's `GdiplusShutdown` is the last call on every later
exit), `capture_region` runs under it, the save result is kept while the
bitmap is deleted explicitly, and then the session guard unwinds. -/
def capture_rectangle (env : PipelineEnv) (x y w h : Int) (filename : String) :
    Except Err Unit × List Ev :=
  if env.gdipStartupOk = false then (.error .gdiplusStartupFailed, [Ev.gdipStartup false])
  else
    match capture_region env.cap x y w h with
    | (.error e, tc) => (.error e, Ev.gdipStartup true :: tc ++ [Ev.gdipShutdown])
    | (.ok hbmp, tc) =>
      let sv := save_hbitmap_with_gdiplus env.save hbmp filename
      (sv.1, Ev.gdipStartup true :: tc ++ sv.2 ++ [Ev.deleteObject hbmp, Ev.gdipShutdown])

/-- Embedding of `screen_rect` (lines 274-291): the raw `GetSystemMetrics`
answers, virtual-desktop metrics verbatim for `Virtual`, `(0, 0, cx, cy)`
for `Primary`. -/
def screen_rect (env : DisplayEnv) (mode : ScreenMode) : Int × Int × Int × Int :=
  match mode with
  | .Virtual => (env.xVirtual, env.yVirtual, env.cxVirtual, env.cyVirtual)
  | .Primary => (0, 0, env.cxScreen, env.cyScreen)

/-- Embedding of main's screen-mode region resolution (lines 361-365):
`screen_rect` followed by the `w <= 0 || h <= 0` rejection that exits with
"Detected non-positive screen size" before any capture work. -/
def resolve_screen_region (env : DisplayEnv) (mode : ScreenMode) :
    Except Err (Int × Int × Int × Int) :=
  match screen_rect env mode with
  | (x, y, w, h) =>
    if w ≤ 0 ∨ h ≤ 0 then .error .geometryUnavailable else .ok (x, y, w, h)

/-- Embedding of main's explicit-rectangle branch (lines 315-339): after
parsing, `w <= 0 || h <= 0` exits with "width and height must be > 0" before
any OS call, otherwise the parsed values go to `capture_rectangle`
verbatim. -/
def main_explicit (env : PipelineEnv) (x y w h : Int) (filename : String) :
    Except Err Unit × List Ev :=
  if w ≤ 0 ∨ h ≤ 0 then (.error .invalidRectangle, [])
  else capture_rectangle env x y w h filename

/- ------------------------------------------------------------------ -/
/- Trace analysis: which events acquire and release which resource.    -/
/- ------------------------------------------------------------------ -/

/-- The six scoped resources of the pipeline. -/
inductive Resource where
  | screenDC
  | memDC
  | bitmap
  | selection
  | gdipSession
  | image
  deriving DecidableEq

/-- Classification of a trace event: a successful acquisition of a resource,
a release of one, or a plain call. -/
inductive EvClass where
  | acq (r : Resource)
  | rel (r : Resource)
  | plain
  deriving DecidableEq

/-- Classify each event. A failed acquiring call acquires nothing. -/
def evClass : Ev → EvClass
  | .getDC true => .acq .screenDC
  | .getDC false => .plain
  | .releaseDC => .rel .screenDC
  | .createCompatDC true => .acq .memDC
  | .createCompatDC false => .plain
  | .deleteDC => .rel .memDC
  | .createDIB (some _) => .acq .bitmap
  | .createDIB none => .plain
  | .deleteObject _ => .rel .bitmap
  | .selectObject true => .acq .selection
  | .selectObject false => .plain
  | .selectRestore => .rel .selection
  | .gdipStartup true => .acq .gdipSession
  | .gdipStartup false => .plain
  | .gdipShutdown => .rel .gdipSession
  | .gdipWrap true => .acq .image
  | .gdipWrap false => .plain
  | .gdipDispose => .rel .image
  | .bitBlt _ _ _ _ _ => .plain
  | .gdipSave _ => .plain

/-- The resources a trace acquires, in order. -/
def acqs (tr : List Ev) : List Resource :=
  tr.filterMap fun e => match evClass e with | .acq r => some r | _ => none

/-- The resources a trace releases, in order. -/
def rels (tr : List Ev) : List Resource :=
  tr.filterMap fun e => match evClass e with | .rel r => some r | _ => none

/-- Stack discipline check: scanning the trace with a stack of currently held
resources, every release must release exactly the most recently acquired
live resource, and the stack must be empty at the end.  `stackOk tr []`
therefore says every acquired resource is released exactly once, in strict
reverse order of acquisition, before the trace ends. -/
def stackOk : List Ev → List Resource → Bool
  | [], pending => pending.isEmpty
  | e :: tr, pending =>
    match evClass e with
    | .acq r => stackOk tr (r :: pending)
    | .rel r =>
      match pending with
      | [] => false
      | p :: ps => if r = p then stackOk tr ps else false
    | .plain => stackOk tr pending

/-- True of events that are neither `GdiplusStartup` nor `GdiplusShutdown`. -/
def evOutsideSession : Ev → Bool
  | .gdipStartup _ => false
  | .gdipShutdown => false
  | _ => true

/-- A trace that touches the GDI+ session lifecycle nowhere. -/
def sessionFree (tr : List Ev) : Bool :=
  tr.all evOutsideSession

deriving instance DecidableEq for Except

/- ------------------------------------------------------------------ -/
/- Helper lemmas.                                                      -/
/- ------------------------------------------------------------------ -/

/-- The `mem::forget` step: erasing the bitmap guard's release from the
live-guard stack of `capture_region`'s success path. -/
theorem erase_bitmap_guard (d : Nat) :
    ([Ev.selectRestore, Ev.deleteObject d, Ev.deleteDC, Ev.releaseDC] : List Ev).erase
      (Ev.deleteObject d) = [Ev.selectRestore, Ev.deleteDC, Ev.releaseDC] := by
  simp [List.erase_cons]

/-- Inversion for a successful `capture_region`: every GDI call succeeded,
the returned handle is the one `CreateDIBSection` produced, and the trace is
the success trace (in particular it contains no `DeleteObject`). -/
theorem capture_region_ok_inv (env : CaptureEnv) (x y w h : Int) (b : Nat)
    (hok : (capture_region env x y w h).1 = Except.ok b) :
    env.getDCOk = true ∧ env.createCompatDCOk = true ∧ env.createDIBOk = true
      ∧ env.selectOk = true ∧ env.bitBltOk = true ∧ b = env.dibHandle
      ∧ (capture_region env x y w h).2
          = [Ev.getDC true, Ev.createCompatDC true, Ev.createDIB (some env.dibHandle),
             Ev.selectObject true, Ev.bitBlt x y w h true, Ev.selectRestore, Ev.deleteDC,
             Ev.releaseDC] := by
  obtain ⟨g1, g2, g3, g4, g5, d, o⟩ := env
  cases g1 <;> cases g2 <;> cases g3 <;> cases g4 <;> cases g5 <;>
    simp_all [capture_region, make_dib_section, erase_bitmap_guard]

/-- `capture_region` never touches the GDI+ session lifecycle. -/
theorem capture_region_sessionFree (env : CaptureEnv) (x y w h : Int) :
    sessionFree (capture_region env x y w h).2 = true := by
  obtain ⟨g1, g2, g3, g4, g5, d, o⟩ := env
  cases g1 <;> cases g2 <;> cases g3 <;> cases g4 <;> cases g5 <;>
    simp_all [capture_region, make_dib_section, erase_bitmap_guard, sessionFree,
      evOutsideSession]

/-- `save_hbitmap_with_gdiplus` never touches the GDI+ session lifecycle. -/
theorem save_sessionFree (env : SaveEnv) (hbmp : Nat) (fn : String) :
    sessionFree (save_hbitmap_with_gdiplus env hbmp fn).2 = true := by
  obtain ⟨vw, venc, vs⟩ := env
  cases vw with
  | false => simp [save_hbitmap_with_gdiplus, sessionFree, evOutsideSession]
  | true =>
    cases hpe : path_extension fn with
    | none => simp [save_hbitmap_with_gdiplus, hpe, sessionFree, evOutsideSession]
    | some ext =>
      cases hcl : clsid_for_extension venc ext with
      | error e =>
        simp [save_hbitmap_with_gdiplus, hpe, hcl, sessionFree, evOutsideSession]
      | ok c =>
        cases vs <;>
          simp [save_hbitmap_with_gdiplus, hpe, hcl, sessionFree, evOutsideSession]

/-- `save_hbitmap_with_gdiplus` never deletes a GDI bitmap handle. -/
theorem save_no_deleteObject (env : SaveEnv) (hbmp : Nat) (fn : String) (b : Nat) :
    (save_hbitmap_with_gdiplus env hbmp fn).2.count (Ev.deleteObject b) = 0 := by
  obtain ⟨vw, venc, vs⟩ := env
  cases vw with
  | false => simp [save_hbitmap_with_gdiplus, List.count_cons]
  | true =>
    cases hpe : path_extension fn with
    | none => simp [save_hbitmap_with_gdiplus, hpe, List.count_cons]
    | some ext =>
      cases hcl : clsid_for_extension venc ext with
      | error e => simp [save_hbitmap_with_gdiplus, hpe, hcl, List.count_cons]
      | ok c => cases vs <;> simp [save_hbitmap_with_gdiplus, hpe, hcl, List.count_cons]

/-- First-match characterization of the encoder scan loop: it answers
`some c` exactly when the codec list splits as `pre ++ info :: post` with no
codec of `pre` matching, `info` matching, and `c` being `info`'s identity. -/
theorem findEncoder_eq_some_iff (want : String) (l : List ImageCodecInfo) (c : Nat) :
    findEncoder want l = some c ↔
      ∃ pre info post, l = pre ++ info :: post
        ∧ (∀ j ∈ pre, infoMatches want j = false)
        ∧ infoMatches want info = true
        ∧ info.Clsid = c := by
  induction l with
  | nil =>
    simp only [findEncoder]
    constructor
    · intro hsome; exact absurd hsome (by simp)
    · rintro ⟨pre, info, post, habs, -⟩
      exact absurd habs (by simp)
  | cons info rest ih =>
    by_cases hm : infoMatches want info
    · simp only [findEncoder, hm, if_pos]
      constructor
      · intro hsome
        exact ⟨[], info, rest, rfl, by simp, hm, by simpa using hsome⟩
      · rintro ⟨pre, info0, post, heq, hpre, hmatch, hc⟩
        cases pre with
        | nil =>
          simp only [List.nil_append, List.cons.injEq] at heq
          rw [heq.1]
          exact congrArg some hc
        | cons j pre =>
          simp only [List.cons_append, List.cons.injEq] at heq
          have : infoMatches want info = false := heq.1 ▸ hpre j (by simp)
          simp [this] at hm
    · have hm' : infoMatches want info = false := by simpa using hm
      simp only [findEncoder, hm', Bool.false_eq_true, if_false]
      rw [ih]
      constructor
      · rintro ⟨pre, info0, post, heq, hpre, hmatch, hc⟩
        refine ⟨info :: pre, info0, post, by simp [heq], ?_, hmatch, hc⟩
        intro j hj
        rcases List.mem_cons.mp hj with rfl | hj
        · exact hm'
        · exact hpre j hj
      · rintro ⟨pre, info0, post, heq, hpre, hmatch, hc⟩
        cases pre with
        | nil =>
          simp only [List.nil_append, List.cons.injEq] at heq
          rw [← heq.1] at hmatch
          simp [hmatch] at hm'
        | cons j pre =>
          simp only [List.cons_append, List.cons.injEq] at heq
          exact ⟨pre, info0, post, heq.2, fun j hj => hpre j (by simp [hj]), hmatch, hc⟩

/-- The encoder scan answers `none` exactly when no codec matches. -/
theorem findEncoder_eq_none_iff (want : String) (l : List ImageCodecInfo) :
    findEncoder want l = none ↔ ∀ info ∈ l, infoMatches want info = false := by
  induction l with
  | nil => simp [findEncoder]
  | cons info rest ih =>
    by_cases hm : infoMatches want info
    · simp [findEncoder, hm]
    · have hm' : infoMatches want info = false := by simpa using hm
      simp [findEncoder, hm', ih]

/-- Claim C1: on every failure inside `capture_region` (screen-DC
acquisition, compatible-DC creation, DIB-section allocation, object
selection, or the block copy), no bitmap handle is returned (the result is
an error), and the trace of OS calls releases every resource acquired up to
that point exactly once, in strict reverse order of acquisition, before the
function returns: the releases are the reverse of the acquisitions and the
trace obeys the stack (LIFO) discipline checked by `stackOk`. -/
theorem capture_region_failure_cleanup (env : CaptureEnv) (x y w h : Int)
    (hfail : env.getDCOk = false ∨ env.createCompatDCOk = false
      ∨ env.createDIBOk = false ∨ env.selectOk = false ∨ env.bitBltOk = false) :
    (∃ e, (capture_region env x y w h).1 = Except.error e)
      ∧ rels (capture_region env x y w h).2 = (acqs (capture_region env x y w h).2).reverse
      ∧ stackOk (capture_region env x y w h).2 [] = true := by
  obtain ⟨g1, g2, g3, g4, g5, d, o⟩ := env
  cases g1 with
  | false => simp [capture_region, rels, acqs, stackOk, evClass]
  | true =>
    cases g2 with
    | false => simp [capture_region, rels, acqs, stackOk, evClass]
    | true =>
      cases g3 with
      | false => simp [capture_region, make_dib_section, rels, acqs, stackOk, evClass]
      | true =>
        cases g4 with
        | false => simp [capture_region, make_dib_section, rels, acqs, stackOk, evClass]
        | true =>
          cases g5 with
          | false => simp [capture_region, make_dib_section, rels, acqs, stackOk, evClass]
          | true => simp at hfail

/-- Witness for C1 at a concrete input: a `BitBlt` failure after all four
acquisitions. -/
theorem capture_region_failure_cleanup_witness :
    (∃ e, (capture_region ⟨true, true, true, true, false, 5, 9⟩ 1 2 3 4).1 = Except.error e)
      ∧ rels (capture_region ⟨true, true, true, true, false, 5, 9⟩ 1 2 3 4).2
          = (acqs (capture_region ⟨true, true, true, true, false, 5, 9⟩ 1 2 3 4).2).reverse
      ∧ stackOk (capture_region ⟨true, true, true, true, false, 5, 9⟩ 1 2 3 4).2 [] = true :=
  capture_region_failure_cleanup ⟨true, true, true, true, false, 5, 9⟩ 1 2 3 4 (by decide)

/-- Claim C4: under a successful enumeration (size query ok, a nonzero
number of encoders and a nonzero buffer size reported, allocation and fill
ok), `clsid_for_extension` returns `Except.ok c` exactly when the codec
list, scanned in enumeration order, first matches at a codec with identity
`c` — where matching a codec (`infoMatches`) means it has extension
information (codecs without any are skipped) and some of its
semicolon-separated patterns, after trimming, stripping leading wildcards
and ASCII-lowercasing, equals the normalized requested token; and it fails
with `unsupportedFormat` (never a default identity) exactly when no codec
matches. -/
theorem clsid_scan_first_match (env : EncoderEnv) (ext : String)
    (h1 : env.sizeQueryOk = true) (h2 : env.encoders ≠ []) (h3 : env.size ≠ 0)
    (h4 : env.allocOk = true) (h5 : env.fillOk = true) :
    (∀ c, clsid_for_extension env ext = Except.ok c ↔
        ∃ pre info post, env.encoders = pre ++ info :: post
          ∧ (∀ j ∈ pre, infoMatches (normalizeExt ext) j = false)
          ∧ infoMatches (normalizeExt ext) info = true
          ∧ info.Clsid = c)
      ∧ (clsid_for_extension env ext = Except.error Err.unsupportedFormat ↔
          ∀ info ∈ env.encoders, infoMatches (normalizeExt ext) info = false) := by
  have hlen : ¬(env.encoders.length = 0 ∨ env.size = 0) := by
    simp [h3, List.length_eq_zero, h2]
  constructor
  · intro c
    simp only [clsid_for_extension, h1, h4, h5, hlen, if_false, if_neg hlen]
    rw [← findEncoder_eq_some_iff (normalizeExt ext) env.encoders c]
    cases hf : findEncoder (normalizeExt ext) env.encoders <;> simp [hf]
  · simp only [clsid_for_extension, h1, h4, h5, if_false, if_neg hlen]
    rw [← findEncoder_eq_none_iff (normalizeExt ext) env.encoders]
    cases hf : findEncoder (normalizeExt ext) env.encoders <;> simp [hf]

/-- Witness for C4 at concrete inputs: among four enumerated codecs (one
with no extension information, then PNG, then JPG with a two-pattern list,
then a later codec also claiming JPEG) the request "JPEG" picks the third
codec — the first in order whose pattern list contains the normalized
token — and a request for the unknown extension "bmp7" fails with
`unsupportedFormat`. -/
theorem clsid_scan_first_match_witness :
    clsid_for_extension
        ⟨true, 32, true, true,
          [⟨1, none⟩, ⟨2, some "*.PNG"⟩, ⟨3, some "*.JPG;*.JPEG"⟩, ⟨4, some "*.JPEG"⟩]⟩
        "JPEG" = Except.ok 3
      ∧ clsid_for_extension ⟨true, 32, true, true, [⟨2, some "*.PNG"⟩]⟩ "bmp7"
          = Except.error Err.unsupportedFormat :=
  ⟨((clsid_scan_first_match
      ⟨true, 32, true, true,
        [⟨1, none⟩, ⟨2, some "*.PNG"⟩, ⟨3, some "*.JPG;*.JPEG"⟩, ⟨4, some "*.JPEG"⟩]⟩
      "JPEG" rfl (by decide) (by decide) rfl rfl).1 3).mpr
      ⟨[⟨1, none⟩, ⟨2, some "*.PNG"⟩], ⟨3, some "*.JPG;*.JPEG"⟩, [⟨4, some "*.JPEG"⟩],
        rfl, by decide, by decide, rfl⟩,
   ((clsid_scan_first_match ⟨true, 32, true, true, [⟨2, some "*.PNG"⟩]⟩ "bmp7"
      rfl (by decide) (by decide) rfl rfl).2).mpr (by decide)⟩

/-- Claim C5: extension matching is case- and dot-insensitive because the
requested extension is normalized to one lowercase dot-prefixed token before
any comparison: for every fixed encoder environment, the requests "PNG",
".png" and "png" produce identical resolution results, their normal forms
all being ".png". -/
theorem clsid_extension_case_insensitive (env : EncoderEnv) :
    clsid_for_extension env "PNG" = clsid_for_extension env ".png"
      ∧ clsid_for_extension env "png" = clsid_for_extension env ".png"
      ∧ normalizeExt "PNG" = ".png" ∧ normalizeExt ".png" = ".png"
      ∧ normalizeExt "png" = ".png" := by
  have hA : normalizeExt "PNG" = ".png" := by decide
  have hB : normalizeExt ".png" = ".png" := by decide
  have hC : normalizeExt "png" = ".png" := by decide
  refine ⟨?_, ?_, hA, hB, hC⟩
  · unfold clsid_for_extension
    rw [hA, hB]
  · unfold clsid_for_extension
    rw [hC, hB]

/-- Claim C2: when `capture_region` succeeds, its own trace deletes the
returned bitmap zero times (the guard's release was suppressed by
`mem::forget` when ownership transferred to the caller), and across the
whole `capture_rectangle` pipeline the bitmap's `DeleteObject` runs exactly
once — for every save environment, i.e. whether the save succeeds or fails
at any stage. -/
theorem bitmap_delete_runs_once (env : PipelineEnv) (x y w h : Int) (fn : String) (b : Nat)
    (hstart : env.gdipStartupOk = true)
    (hok : (capture_region env.cap x y w h).1 = Except.ok b) :
    (capture_region env.cap x y w h).2.count (Ev.deleteObject b) = 0
      ∧ (capture_rectangle env x y w h fn).2.count (Ev.deleteObject b) = 1 := by
  obtain ⟨-, -, -, -, -, hb, htr⟩ := capture_region_ok_inv env.cap x y w h b hok
  have hpair : capture_region env.cap x y w h
      = (Except.ok b,
         [Ev.getDC true, Ev.createCompatDC true, Ev.createDIB (some env.cap.dibHandle),
          Ev.selectObject true, Ev.bitBlt x y w h true, Ev.selectRestore, Ev.deleteDC,
          Ev.releaseDC]) := by
    rw [← hok, ← htr]
  constructor
  · rw [htr, hb]
    simp [List.count_cons]
  · simp only [capture_rectangle, hstart, hpair]
    rw [hb]
    simp [List.count_cons, List.count_append, save_no_deleteObject]

/-- Witness for C2 at a concrete input (with a failing save call, so the
single deletion is visibly independent of the save outcome). -/
theorem bitmap_delete_runs_once_witness :
    (capture_region ⟨true, true, true, true, true, 5, 9⟩ 0 0 2 2).2.count
        (Ev.deleteObject 5) = 0
      ∧ (capture_rectangle ⟨true, ⟨true, true, true, true, true, 5, 9⟩,
          ⟨true, ⟨true, 16, true, true, [⟨2, some "*.PNG"⟩]⟩, false⟩⟩ 0 0 2 2
          "out.png").2.count (Ev.deleteObject 5) = 1 :=
  bitmap_delete_runs_once
    ⟨true, ⟨true, true, true, true, true, 5, 9⟩,
      ⟨true, ⟨true, 16, true, true, [⟨2, some "*.PNG"⟩]⟩, false⟩⟩ 0 0 2 2 "out.png" 5
    rfl (by decide)

/-- Claim C3: when `GdiplusStartup` succeeds, the session is the outermost
scoped resource of `capture_rectangle`: the startup is the very first OS
call of the trace, the shutdown is the very last (so it happens on every
exit path, strictly after the image wrap's `GdipDisposeImage`, which lies in
the middle part), the middle part never touches the session lifecycle, and
the pipeline's result is exactly the body's result — a capture failure or
the save's outcome — re-raised after the shutdown is emitted. -/
theorem gdiplus_session_outermost (env : PipelineEnv) (x y w h : Int) (fn : String)
    (hstart : env.gdipStartupOk = true) :
    ∃ mid,
      (capture_rectangle env x y w h fn).2 = Ev.gdipStartup true :: (mid ++ [Ev.gdipShutdown])
        ∧ sessionFree mid = true
        ∧ (∀ e, (capture_region env.cap x y w h).1 = Except.error e →
            (capture_rectangle env x y w h fn).1 = Except.error e)
        ∧ (∀ b, (capture_region env.cap x y w h).1 = Except.ok b →
            (capture_rectangle env x y w h fn).1
              = (save_hbitmap_with_gdiplus env.save b fn).1) := by
  rcases hcr : capture_region env.cap x y w h with ⟨res, tc⟩
  have hsf : sessionFree tc = true := by
    have h := capture_region_sessionFree env.cap x y w h
    rw [hcr] at h
    exact h
  cases res with
  | error e =>
    refine ⟨tc, ?_, hsf, ?_, ?_⟩
    · simp [capture_rectangle, hstart, hcr]
    · intro e' he'
      have he2 : e = e' := by simpa using he'
      subst he2
      simp [capture_rectangle, hstart, hcr]
    · intro b hb
      simp at hb
  | ok b =>
    refine ⟨tc ++ (save_hbitmap_with_gdiplus env.save b fn).2 ++ [Ev.deleteObject b],
      ?_, ?_, ?_, ?_⟩
    · simp [capture_rectangle, hstart, hcr]
    · have hsv := save_sessionFree env.save b fn
      simp only [sessionFree, List.all_append, List.all_cons, List.all_nil] at hsf hsv ⊢
      simp [hsf, hsv, evOutsideSession]
    · intro e he
      simp at he
    · intro b' hb'
      have hb2 : b = b' := by simpa using hb'
      subst hb2
      simp [capture_rectangle, hstart, hcr]

/-- Witness for C3 at a concrete all-success input. -/
theorem gdiplus_session_outermost_witness :
    ∃ mid,
      (capture_rectangle ⟨true, ⟨true, true, true, true, true, 5, 9⟩,
          ⟨true, ⟨true, 16, true, true, [⟨2, some "*.PNG"⟩]⟩, true⟩⟩ 0 0 2 2 "out.png").2
          = Ev.gdipStartup true :: (mid ++ [Ev.gdipShutdown])
        ∧ sessionFree mid = true
        ∧ (∀ e, (capture_region ⟨true, true, true, true, true, 5, 9⟩ 0 0 2 2).1
              = Except.error e →
            (capture_rectangle ⟨true, ⟨true, true, true, true, true, 5, 9⟩,
                ⟨true, ⟨true, 16, true, true, [⟨2, some "*.PNG"⟩]⟩, true⟩⟩ 0 0 2 2
                "out.png").1 = Except.error e)
        ∧ (∀ b, (capture_region ⟨true, true, true, true, true, 5, 9⟩ 0 0 2 2).1
              = Except.ok b →
            (capture_rectangle ⟨true, ⟨true, true, true, true, true, 5, 9⟩,
                ⟨true, ⟨true, 16, true, true, [⟨2, some "*.PNG"⟩]⟩, true⟩⟩ 0 0 2 2
                "out.png").1
              = (save_hbitmap_with_gdiplus ⟨true, ⟨true, 16, true, true, [⟨2, some "*.PNG"⟩]⟩,
                  true⟩ b "out.png").1) :=
  gdiplus_session_outermost
    ⟨true, ⟨true, true, true, true, true, 5, 9⟩,
      ⟨true, ⟨true, 16, true, true, [⟨2, some "*.PNG"⟩]⟩, true⟩⟩ 0 0 2 2 "out.png" rfl

/-- Claim C6: `screen_rect` answers `(0, 0, primary_width, primary_height)`
in primary mode and the virtual-desktop metrics verbatim (x and y may be
negative, unclamped) in virtual mode, and main's region resolution returns
that rectangle exactly when its width and height are positive, failing with
the non-positive-screen-size exit (spec: GeometryUnavailable) — and never
returning a rectangle — whenever the queried width or height is
non-positive. -/
theorem screen_region_resolution (env : DisplayEnv) (mode : ScreenMode) :
    screen_rect env ScreenMode.Primary = (0, 0, env.cxScreen, env.cyScreen)
      ∧ screen_rect env ScreenMode.Virtual
          = (env.xVirtual, env.yVirtual, env.cxVirtual, env.cyVirtual)
      ∧ (∀ x y w h, screen_rect env mode = (x, y, w, h) →
          ((0 < w ∧ 0 < h → resolve_screen_region env mode = Except.ok (x, y, w, h))
            ∧ (w ≤ 0 ∨ h ≤ 0 →
                resolve_screen_region env mode = Except.error Err.geometryUnavailable)))
      ∧ (∀ r, resolve_screen_region env mode = Except.ok r → r = screen_rect env mode) := by
  refine ⟨rfl, rfl, ?_, ?_⟩
  · intro x y w h hxy
    constructor
    · intro hpos
      simp only [resolve_screen_region, hxy]
      rw [if_neg (by omega)]
    · intro hle
      simp only [resolve_screen_region, hxy]
      rw [if_pos hle]
  · intro r hr
    rcases hsc : screen_rect env mode with ⟨x, y, zw, zh⟩
    simp only [resolve_screen_region, hsc] at hr
    by_cases hc : zw ≤ 0 ∨ zh ≤ 0
    · rw [if_pos hc] at hr
      exact absurd hr (by simp)
    · rw [if_neg hc] at hr
      simp only [Except.ok.injEq] at hr
      exact hr.symm

/-- Witness for C6 at concrete inputs: Scenario C's two-display layout
(virtual origin left of zero is returned verbatim) and a zero-width layout
(resolution fails). -/
theorem screen_region_resolution_witness :
    resolve_screen_region ⟨-1920, 0, 3840, 1080, 1920, 1080⟩ ScreenMode.Virtual
        = Except.ok (-1920, 0, 3840, 1080)
      ∧ resolve_screen_region ⟨0, 0, 0, 1080, 1920, 1080⟩ ScreenMode.Virtual
          = Except.error Err.geometryUnavailable :=
  ⟨(((screen_region_resolution ⟨-1920, 0, 3840, 1080, 1920, 1080⟩ ScreenMode.Virtual).2.2.1
      (-1920) 0 3840 1080 rfl).1) (by decide),
   (((screen_region_resolution ⟨0, 0, 0, 1080, 1920, 1080⟩ ScreenMode.Virtual).2.2.1
      0 0 0 1080 rfl).2) (by decide)⟩

/-- Claim C7: in the explicit-rectangle branch of main, a rectangle with
non-positive width or height is rejected with the width/height exit (spec:
InvalidArgument) before any OS call — the trace is empty, i.e. zero
capture-subsystem calls — while a valid rectangle is handed to
`capture_rectangle` completely verbatim (negative x or y included), as the
`BitBlt` event carrying exactly the supplied coordinates shows. -/
theorem explicit_rect_validation (env : PipelineEnv) (x y w h : Int) (fn : String) :
    (w ≤ 0 ∨ h ≤ 0 → main_explicit env x y w h fn = (Except.error Err.invalidRectangle, []))
      ∧ (0 < w → 0 < h → main_explicit env x y w h fn = capture_rectangle env x y w h fn)
      ∧ (0 < w → 0 < h → env.gdipStartupOk = true → env.cap.getDCOk = true →
          env.cap.createCompatDCOk = true → env.cap.createDIBOk = true →
          env.cap.selectOk = true →
          Ev.bitBlt x y w h env.cap.bitBltOk ∈ (main_explicit env x y w h fn).2) := by
  refine ⟨?_, ?_, ?_⟩
  · intro hle
    unfold main_explicit
    rw [if_pos hle]
  · intro hw hh
    unfold main_explicit
    rw [if_neg (by omega)]
  · intro hw hh hstart hg hc hd hs
    have hne : ¬(w ≤ 0 ∨ h ≤ 0) := by omega
    cases hbb : env.cap.bitBltOk <;>
      simp [main_explicit, hne, capture_rectangle, capture_region, make_dib_section,
        hstart, hg, hc, hd, hs, hbb, erase_bitmap_guard]

/-- Witness for C7 at concrete inputs: width 0 is rejected with an empty
trace, and a rectangle with negative origin reaches `BitBlt` verbatim. -/
theorem explicit_rect_validation_witness :
    main_explicit ⟨true, ⟨true, true, true, true, true, 5, 9⟩,
        ⟨true, ⟨true, 16, true, true, [⟨2, some "*.PNG"⟩]⟩, true⟩⟩ 10 20 0 7 "out.png"
        = (Except.error Err.invalidRectangle, [])
      ∧ Ev.bitBlt (-3) (-4) 2 2 true
          ∈ (main_explicit ⟨true, ⟨true, true, true, true, true, 5, 9⟩,
              ⟨true, ⟨true, 16, true, true, [⟨2, some "*.PNG"⟩]⟩, true⟩⟩ (-3) (-4) 2 2
              "out.png").2 :=
  ⟨(explicit_rect_validation ⟨true, ⟨true, true, true, true, true, 5, 9⟩,
      ⟨true, ⟨true, 16, true, true, [⟨2, some "*.PNG"⟩]⟩, true⟩⟩ 10 20 0 7 "out.png").1
      (by decide),
   (explicit_rect_validation ⟨true, ⟨true, true, true, true, true, 5, 9⟩,
      ⟨true, ⟨true, 16, true, true, [⟨2, some "*.PNG"⟩]⟩, true⟩⟩ (-3) (-4) 2 2 "out.png").2.2
      (by decide) (by decide) rfl rfl rfl rfl rfl⟩

/-- Claim C8: `save_hbitmap_with_gdiplus` fails with `wrapFailed` when the
subsystem rejects the bitmap handle (and then no image object exists, so
nothing is disposed), with `noExtension` (spec: InvalidArgument) when the
filename has no extension, and with `saveFailed` when the save-to-file call
reports a non-success status; and whenever the wrap succeeded — in each of
those error cases and on success alike — the wrapped image object is
disposed exactly once, as the final call before `save` returns. -/
theorem save_error_paths_dispose (env : SaveEnv) (hbmp : Nat) (fn : String) :
    (env.wrapOk = false →
        save_hbitmap_with_gdiplus env hbmp fn
          = (Except.error Err.wrapFailed, [Ev.gdipWrap false]))
      ∧ (env.wrapOk = true → path_extension fn = none →
          (save_hbitmap_with_gdiplus env hbmp fn).1 = Except.error Err.noExtension)
      ∧ (∀ ext c, env.wrapOk = true → path_extension fn = some ext →
          clsid_for_extension env.enc ext = Except.ok c → env.saveOk = false →
          (save_hbitmap_with_gdiplus env hbmp fn).1 = Except.error Err.saveFailed)
      ∧ ((save_hbitmap_with_gdiplus env hbmp fn).2.count Ev.gdipDispose
          = if env.wrapOk = true then 1 else 0)
      ∧ (env.wrapOk = true →
          (save_hbitmap_with_gdiplus env hbmp fn).2.getLast? = some Ev.gdipDispose) := by
  refine ⟨?_, ?_, ?_, ?_, ?_⟩
  · intro hw
    simp [save_hbitmap_with_gdiplus, hw]
  · intro hw hpe
    simp [save_hbitmap_with_gdiplus, hw, hpe]
  · intro ext c hw hpe hcl hs
    simp [save_hbitmap_with_gdiplus, hw, hpe, hcl, hs]
  · cases hw : env.wrapOk with
    | false => simp [save_hbitmap_with_gdiplus, hw, List.count_cons]
    | true =>
      cases hpe : path_extension fn with
      | none => simp [save_hbitmap_with_gdiplus, hw, hpe, List.count_cons]
      | some ext =>
        cases hcl : clsid_for_extension env.enc ext with
        | error e => simp [save_hbitmap_with_gdiplus, hw, hpe, hcl, List.count_cons]
        | ok c =>
          cases hs : env.saveOk <;>
            simp [save_hbitmap_with_gdiplus, hw, hpe, hcl, hs, List.count_cons]
  · intro hw
    cases hpe : path_extension fn with
    | none => simp [save_hbitmap_with_gdiplus, hw, hpe]
    | some ext =>
      cases hcl : clsid_for_extension env.enc ext with
      | error e => simp [save_hbitmap_with_gdiplus, hw, hpe, hcl]
      | ok c =>
        cases hs : env.saveOk <;> simp [save_hbitmap_with_gdiplus, hw, hpe, hcl, hs]

/-- Witness for C8 at concrete inputs: a rejected handle, a filename with no
extension, and a failing save call on "shot.png", each with the dispose
trace facts. -/
theorem save_error_paths_dispose_witness :
    save_hbitmap_with_gdiplus ⟨false, ⟨true, 16, true, true, [⟨2, some "*.PNG"⟩]⟩, true⟩ 5
        "shot.png" = (Except.error Err.wrapFailed, [Ev.gdipWrap false])
      ∧ (save_hbitmap_with_gdiplus ⟨true, ⟨true, 16, true, true, [⟨2, some "*.PNG"⟩]⟩, true⟩ 5
          "noext").1 = Except.error Err.noExtension
      ∧ (save_hbitmap_with_gdiplus ⟨true, ⟨true, 16, true, true, [⟨2, some "*.PNG"⟩]⟩, false⟩ 5
          "shot.png").1 = Except.error Err.saveFailed
      ∧ (save_hbitmap_with_gdiplus ⟨true, ⟨true, 16, true, true, [⟨2, some "*.PNG"⟩]⟩, false⟩ 5
          "shot.png").2.getLast? = some Ev.gdipDispose :=
  ⟨(save_error_paths_dispose ⟨false, ⟨true, 16, true, true, [⟨2, some "*.PNG"⟩]⟩, true⟩ 5
      "shot.png").1 rfl,
   (save_error_paths_dispose ⟨true, ⟨true, 16, true, true, [⟨2, some "*.PNG"⟩]⟩, true⟩ 5
      "noext").2.1 rfl (by decide),
   (save_error_paths_dispose ⟨true, ⟨true, 16, true, true, [⟨2, some "*.PNG"⟩]⟩, false⟩ 5
      "shot.png").2.2.1 "png" 2 rfl (by decide) (by decide) rfl,
   (save_error_paths_dispose ⟨true, ⟨true, 16, true, true, [⟨2, some "*.PNG"⟩]⟩, false⟩ 5
      "shot.png").2.2.2.2 rfl⟩

/-- Claim C9 (counterexample): the claim says `clsid_for_extension` fails
with `noEncodersInstalled` exactly when zero encoders are reported, but the
code also takes that branch when the count is nonzero and only the reported
buffer size is zero: here one encoder is reported with byte size 0 and the
function still answers `noEncodersInstalled`. -/
theorem clsid_no_encoders_counterexample :
    clsid_for_extension ⟨true, 0, true, true, [⟨7, some "*.png"⟩]⟩ "png"
        = Except.error Err.noEncodersInstalled
      ∧ ([(⟨7, some "*.png"⟩ : ImageCodecInfo)] : List ImageCodecInfo).length ≠ 0 := by
  constructor
  · rfl
  · decide

/-- Claim C9 as amended: `clsid_for_extension` fails with
`encodersSizeFailed` exactly when the size query itself fails, and with
`noEncodersInstalled` exactly when the size query succeeds but reports zero
encoders or a zero buffer size; and an encoder identity is only ever
returned when the size query succeeded and both the count and the size are
nonzero. -/
theorem clsid_enumeration_error_characterization (env : EncoderEnv) (ext : String) :
    (clsid_for_extension env ext = Except.error Err.encodersSizeFailed
        ↔ env.sizeQueryOk = false)
      ∧ (clsid_for_extension env ext = Except.error Err.noEncodersInstalled
          ↔ env.sizeQueryOk = true ∧ (env.encoders.length = 0 ∨ env.size = 0))
      ∧ (∀ c, clsid_for_extension env ext = Except.ok c →
          env.sizeQueryOk = true ∧ env.encoders.length ≠ 0 ∧ env.size ≠ 0) := by
  cases hq : env.sizeQueryOk with
  | false => simp [clsid_for_extension, hq]
  | true =>
    by_cases hz : env.encoders.length = 0 ∨ env.size = 0
    · have h1 : clsid_for_extension env ext = Except.error Err.noEncodersInstalled := by
        simp only [clsid_for_extension, hq]
        rw [if_neg (by simp), if_pos hz]
      refine ⟨?_, ?_, ?_⟩
      · rw [h1]
        simp [hq]
      · rw [h1]
        simp [hq]
        exact hz.imp (fun hl => List.length_eq_zero.mp hl) id
      · intro c hc
        rw [h1] at hc
        exact absurd hc (by simp)
    · rw [not_or] at hz
      cases ha : env.allocOk with
      | false => simp [clsid_for_extension, hq, hz.1, hz.2, ha]
      | true =>
        cases hf : env.fillOk with
        | false => simp [clsid_for_extension, hq, hz.1, hz.2, ha, hf]
        | true =>
          cases hfe : findEncoder (normalizeExt ext) env.encoders <;>
            simp [clsid_for_extension, hq, hz.1, hz.2, ha, hf, hfe]

/-- Witness for the amended C9 at a concrete input: a failing size query
yields `encodersSizeFailed`. -/
theorem clsid_enumeration_error_characterization_witness :
    clsid_for_extension ⟨false, 8, true, true, [⟨2, some "*.PNG"⟩]⟩ "png"
        = Except.error Err.encodersSizeFailed :=
  ((clsid_enumeration_error_characterization ⟨false, 8, true, true, [⟨2, some "*.PNG"⟩]⟩
      "png").1).mpr rfl

/-- `afterLastDot` answers `none` exactly on dot-free lists. -/
theorem afterLastDot_eq_none_iff (l : List Char) :
    afterLastDot l = none ↔ ∀ c ∈ l, c ≠ '.' := by
  induction l with
  | nil => simp [afterLastDot]
  | cons c cs ih =>
    cases hd : afterLastDot cs with
    | some r =>
      have : ¬∀ a ∈ cs, a ≠ '.' := fun hall => by
        have := ih.mpr hall
        rw [hd] at this
        exact absurd this (by simp)
      simp only [afterLastDot, hd]
      constructor
      · intro habs
        exact absurd habs (by simp)
      · intro hall
        exact absurd (fun a ha => hall a (List.mem_cons_of_mem c ha)) this
    | none =>
      by_cases hc : c = '.'
      · subst hc
        simp [afterLastDot, hd]
      · simp only [afterLastDot, hd, if_neg hc]
        simp only [List.mem_cons, ne_eq]
        constructor
        · intro _ a ha
          rcases ha with rfl | ha
          · exact hc
          · exact (ih.mp hd) a ha
        · intro _
          trivial

/-- A file name with no dot, or with a dot only in leading position, has no
extension. -/
theorem extOfName_eq_none (name : List Char)
    (hcond : (∀ c ∈ name, c ≠ '.')
      ∨ (name.head? = some '.' ∧ ∀ c ∈ name.tail, c ≠ '.')) :
    extOfName name = none := by
  cases name with
  | nil => rfl
  | cons c0 rest =>
    have hrest : afterLastDot rest = none := by
      refine (afterLastDot_eq_none_iff rest).mpr ?_
      rcases hcond with h | h
      · exact fun c hc => h c (List.mem_cons_of_mem c0 hc)
      · simpa using h.2
    simp [extOfName, hrest]

/-- Claim C10: for every filename whose (Rust `Path::file_name`) file name
contains no dot, or begins with a dot and contains no other dot (a
hidden-file-style name such as ".png"), `save_hbitmap_with_gdiplus` fails
with the no-extension error (spec: InvalidArgument) once the wrap stage is
past — whatever encoders are installed, so the leading dot is never used
for encoder resolution. -/
theorem hidden_file_no_extension (env : SaveEnv) (hbmp : Nat) (fn : String)
    (name : List Char) (hwrap : env.wrapOk = true)
    (hname : path_file_name fn = some name)
    (hcond : (∀ c ∈ name, c ≠ '.')
      ∨ (name.head? = some '.' ∧ ∀ c ∈ name.tail, c ≠ '.')) :
    (save_hbitmap_with_gdiplus env hbmp fn).1 = Except.error Err.noExtension := by
  have hext : path_extension fn = none := by
    simp [path_extension, hname, extOfName_eq_none name hcond]
  simp [save_hbitmap_with_gdiplus, hwrap, hext]

/-- Witness for C10 at a concrete input: saving to ".png" (with a PNG
encoder installed and every other call succeeding) fails with the
no-extension error. -/
theorem hidden_file_no_extension_witness :
    (save_hbitmap_with_gdiplus ⟨true, ⟨true, 16, true, true, [⟨2, some "*.PNG"⟩]⟩, true⟩ 5
        ".png").1 = Except.error Err.noExtension :=
  hidden_file_no_extension ⟨true, ⟨true, 16, true, true, [⟨2, some "*.PNG"⟩]⟩, true⟩ 5
    ".png" ['.', 'p', 'n', 'g'] rfl (by decide) (Or.inr (by decide))

end GdipSnapshot
